import Mathlib

/-!
Verification of the grizzly-greens client-side search widget.

The repository holds three near-duplicate implementations of the widget:
* `SearchJs`  — the portal-only variant (src/search.js),
* `Part000`   — the variant with field normalization and a loading flag
                (src/unnamed/part_000),
* `Part001`   — the variant with a title tie-break and wrap-around keys
                (src/unnamed/part_001).

JS strings are modelled as lists of characters (the index data is ASCII);
`String.prototype.toLowerCase` is modelled character by character,
`String.prototype.trim` by dropping whitespace on both ends,
`t.indexOf(q) === 0` by `List.isPrefixOf` and `t.indexOf(q) !== -1` by a
recursive substring test.  `Array.prototype.sort` is stable (ES2019) and a
stable sort is determined up to extensional equality by its comparator, so
a JS sort with comparator `cmp` is modelled as the stable
`List.insertionSort` with the ordering `cmp a b ≤ 0`; `localeCompare` on
titles is modelled as the lexicographic order on character lists.
-/

set_option maxHeartbeats 1000000

namespace GrizzlyGreens

/-- JS strings, modelled as lists of characters. -/
abbrev Str := List Char

/-- ASCII model of JS `String.prototype.toLowerCase`, one character. -/
def lowerChar (c : Char) : Char :=
  if c = 'A' then 'a' else if c = 'B' then 'b' else if c = 'C' then 'c'
  else if c = 'D' then 'd' else if c = 'E' then 'e' else if c = 'F' then 'f'
  else if c = 'G' then 'g' else if c = 'H' then 'h' else if c = 'I' then 'i'
  else if c = 'J' then 'j' else if c = 'K' then 'k' else if c = 'L' then 'l'
  else if c = 'M' then 'm' else if c = 'N' then 'n' else if c = 'O' then 'o'
  else if c = 'P' then 'p' else if c = 'Q' then 'q' else if c = 'R' then 'r'
  else if c = 'S' then 's' else if c = 'T' then 't' else if c = 'U' then 'u'
  else if c = 'V' then 'v' else if c = 'W' then 'w' else if c = 'X' then 'x'
  else if c = 'Y' then 'y' else if c = 'Z' then 'z' else c

/-- JS `String.prototype.toLowerCase`. -/
def jsLower (s : Str) : Str := s.map lowerChar

/-- Whitespace characters removed by JS `String.prototype.trim`. -/
def isWsChar (c : Char) : Bool :=
  c = ' ' || c = '\t' || c = '\n' || c = '\r'

/-- JS `String.prototype.trim`: strip leading and trailing whitespace. -/
def jsTrim (s : Str) : Str :=
  ((s.dropWhile isWsChar).reverse.dropWhile isWsChar).reverse

/-- JS `t.indexOf(q) !== -1`: `q` occurs as a contiguous substring of `t`. -/
def hasSub (q : Str) : Str → Bool
  | [] => decide (q = ([] : Str))
  | c :: rest => q.isPrefixOf (c :: rest) || hasSub q rest

/-- A normalized searchable record `{t, d, u}` (title, description, url). -/
structure Item where
  t : Str
  d : Str
  u : Str
deriving DecidableEq

/-- A scored candidate `{s, it}` as pushed by the ranking loops. -/
structure Scored where
  s : Int
  it : Item
deriving DecidableEq

/-- The widget's observable result state after one search/render pass. -/
inductive UIState where
  | closed
  | openEmpty
  | openLoading
  | openResults (top : List Scored)
deriving DecidableEq

/-- The four match kinds distinguished by every score function. -/
inductive Kind where
  | kExact
  | kStarts
  | kContains
  | kInDesc
deriving DecidableEq

/-- Strength rank of a match kind (larger = stronger). -/
def rank : Kind → Nat
  | Kind.kExact => 3
  | Kind.kStarts => 2
  | Kind.kContains => 1
  | Kind.kInDesc => 0

/-- Which match kind (if any) the cascaded conditions of the score
functions select, given the already-normalized query, title and
description. -/
def kindOf (q t d : Str) : Option Kind :=
  if t = q then some Kind.kExact
  else if q.isPrefixOf t then some Kind.kStarts
  else if hasSub q t then some Kind.kContains
  else if hasSub q d then some Kind.kInDesc
  else none

namespace SearchJs

/-- Function `score` from src/search.js lines 69-79. -/
def score (q t d : Str) : Int :=
  let q := jsLower q
  let t := jsLower t
  let d := jsLower d
  if q = ([] : Str) then 0
  else if t = q then 1000
  else if q.isPrefixOf t then 800
  else if hasSub q t then 600
  else if hasSub q d then 300
  else 0

/-- The comparator `function (a, b) { return b.s - a.s; }` (line 104) as a
stable-sort ordering: `a` may stay before `b` iff `b.s - a.s <= 0`. -/
def cmpLe (a b : Scored) : Prop := b.s ≤ a.s

instance : DecidableRel cmpLe := fun a b => inferInstanceAs (Decidable (b.s ≤ a.s))

/-- The candidate-collection loop of `render` (lines 98-103): score every
item, keep those with score `> 0`. -/
def candidates (items : List Item) (q : Str) : List Scored :=
  (items.map fun it => ⟨score q it.t it.d, it⟩).filter fun c => decide (c.s > 0)

/-- The call `ranked.sort(...)` (line 104): stable sort by descending score. -/
def ranked (items : List Item) (q : Str) : List Scored :=
  List.insertionSort cmpLe (candidates items q)

/-- Function `render` from src/search.js lines 94-128, reduced to the observable
result state. -/
def render (items : List Item) (q : Str) : UIState :=
  let qt := jsTrim q
  if qt = ([] : Str) then UIState.closed
  else
    let top := (ranked items qt).take 10
    if top = ([] : List Scored) then UIState.openEmpty
    else UIState.openResults top

/-- Loader state of src/search.js: the module-level `items`/`loaded`
variables, plus a count of issued fetches. -/
structure LoadState where
  items : List Item
  loaded : Bool
  fetchCount : Nat
deriving DecidableEq

/-- Initial loader state (lines 14-15). -/
def initLoad : LoadState := ⟨[], false, 0⟩

/-- One call to `ensureLoaded` (lines 54-57) before the fetch settles:
when `loaded` is still false it flips the flag and issues the fetch. -/
def ensureLoaded (s : LoadState) : LoadState :=
  if s.loaded then s else ⟨s.items, true, s.fetchCount + 1⟩

/-- The fulfilled-fetch handler (lines 59-62): `data.items` if it is an
array, else `[]`. -/
def onLoadSuccess (s : LoadState) (data : Option (List Item)) : LoadState :=
  ⟨data.getD [], s.loaded, s.fetchCount⟩

/-- The `catch` handler (lines 63-66): `items = []`. -/
def onLoadFailure (s : LoadState) : LoadState :=
  ⟨[], s.loaded, s.fetchCount⟩

/-- ArrowDown branch of the keydown handler (lines 160-167): clamp at the
last row. -/
def arrowDown (n : Nat) (a : Int) : Int :=
  if n = 0 then a
  else if a + 1 ≥ (n : Int) then (n : Int) - 1
  else a + 1

/-- ArrowUp branch of the keydown handler (lines 169-176): clamp at row 0. -/
def arrowUp (n : Nat) (a : Int) : Int :=
  if n = 0 then a
  else if a - 1 < 0 then 0
  else a - 1

/-- Enter branch of the keydown handler (lines 178-184): navigate to the
active row, defaulting to row 0 when none is active.  The result is the
index of the row navigated to, if any. -/
def enterNav (n : Nat) (a : Int) : Option Int :=
  if n = 0 then none
  else
    let pk := if a ≥ 0 then a else 0
    if pk < (n : Int) then some pk else none

end SearchJs

namespace Part000

/-- A raw index entry as consumed by `normalizeData` (src/unnamed/part_000):
each alias key is optionally present; `none` models an absent field. -/
structure RawEntry where
  t : Option Str
  title : Option Str
  name : Option Str
  h1 : Option Str
  d : Option Str
  description : Option Str
  desc : Option Str
  snippet : Option Str
  summary : Option Str
  u : Option Str
  url : Option Str
  href : Option Str
  path : Option Str
  link : Option Str
deriving DecidableEq

/-- The JS alias chain `x.a || x.b || ... || ""`: the first present,
non-empty field wins; otherwise the empty string. -/
def pick : List (Option Str) → Str
  | [] => []
  | some s :: rest => if s = ([] : Str) then pick rest else s
  | none :: rest => pick rest

/-- Function `normUrl` from src/unnamed/part_000 lines 51-55: trim, defaulting an
empty url to "/". -/
def normUrl (u : Str) : Str :=
  let u := jsTrim u
  if u = ([] : Str) then ['/'] else u

/-- The per-entry body of the `normalizeData` loop (lines 102-117):
resolve aliases, trim, normalize the url, and drop the entry when the
title or url ends up empty. -/
def normalizeEntry (x : RawEntry) : Option Item :=
  let t := jsTrim (pick [x.t, x.title, x.name, x.h1])
  let d := jsTrim (pick [x.d, x.description, x.desc, x.snippet, x.summary])
  let u := normUrl (pick [x.u, x.url, x.href, x.path, x.link])
  if t = ([] : Str) || u = ([] : Str) then none
  else some ⟨t, d, u⟩

/-- Function `normalizeData` from src/unnamed/part_000 lines 94-119; a `none` in
the raw list models a falsy array element (`if (!x) continue`). -/
def normalizeData (raw : List (Option RawEntry)) : List Item :=
  raw.filterMap fun ox => ox.bind normalizeEntry

/-- Function `score` from src/unnamed/part_000 lines 152-168 (prefix 850,
title-substring 650). -/
def score (q t d : Str) : Int :=
  let q := jsLower q
  let t := jsLower t
  let d := jsLower d
  if q = ([] : Str) then 0
  else if t = q then 1000
  else if q.isPrefixOf t then 850
  else if hasSub q t then 650
  else if hasSub q d then 300
  else 0

/-- The comparator `function (a, b) { return b.s - a.s; }` (line 193) as a
stable-sort ordering. -/
def cmpLe (a b : Scored) : Prop := b.s ≤ a.s

instance : DecidableRel cmpLe := fun a b => inferInstanceAs (Decidable (b.s ≤ a.s))

/-- The candidate-collection loop of `render` (lines 186-191). -/
def candidates (items : List Item) (q : Str) : List Scored :=
  (items.map fun it => ⟨score q it.t it.d, it⟩).filter fun c => decide (c.s > 0)

/-- The call `ranked.sort(...)` (line 193): stable sort by descending score. -/
def ranked (items : List Item) (q : Str) : List Scored :=
  List.insertionSort cmpLe (candidates items q)

/-- Function `render` from src/unnamed/part_000 lines 179-220, reduced to the
observable result state. -/
def render (items : List Item) (q : Str) : UIState :=
  let qt := jsTrim q
  if qt = ([] : Str) then UIState.closed
  else
    let top := (ranked items qt).take 10
    if top = ([] : List Scored) then UIState.openEmpty
    else UIState.openResults top

/-- Loader state of src/unnamed/part_000: the module-level
`items`/`loaded`/`loading` variables plus a count of issued fetches. -/
structure LoadState where
  items : List Item
  loaded : Bool
  loading : Bool
  fetchCount : Nat
deriving DecidableEq

/-- Initial loader state (lines 23-25). -/
def initLoad : LoadState := ⟨[], false, false, 0⟩

/-- One call to `ensureLoaded` (lines 121-126) before the fetch settles:
already loaded or already loading short-circuits; otherwise the `loading`
flag is set and the fetch is issued. -/
def ensureLoaded (s : LoadState) : LoadState :=
  if s.loaded then s
  else if s.loading then s
  else ⟨s.items, s.loaded, true, s.fetchCount + 1⟩

/-- The fulfilled-fetch handler (lines 131-141). -/
def onLoadSuccess (s : LoadState) (raw : List (Option RawEntry)) : LoadState :=
  ⟨normalizeData raw, true, false, s.fetchCount⟩

/-- The `catch` handler (lines 142-149): empty items, settled as loaded. -/
def onLoadFailure (s : LoadState) : LoadState :=
  ⟨[], true, false, s.fetchCount⟩

/-- ArrowDown branch of the keydown handler (lines 261-268): clamp. -/
def arrowDown (n : Nat) (a : Int) : Int :=
  if n = 0 then a
  else if a + 1 ≥ (n : Int) then (n : Int) - 1
  else a + 1

/-- ArrowUp branch of the keydown handler (lines 270-277): clamp. -/
def arrowUp (n : Nat) (a : Int) : Int :=
  if n = 0 then a
  else if a - 1 < 0 then 0
  else a - 1

/-- Enter branch of the keydown handler (lines 279-285): navigate to the
active row, defaulting to row 0 when none is active. -/
def enterNav (n : Nat) (a : Int) : Option Int :=
  if n = 0 then none
  else
    let pk := if a ≥ 0 then a else 0
    if pk < (n : Int) then some pk else none

end Part000

namespace Part001

/-- Function `norm` from src/unnamed/part_001 lines 22-24: lowercase, then trim. -/
def norm (s : Str) : Str := jsTrim (jsLower s)

/-- Function `scoreItem` from src/unnamed/part_001 lines 74-86; expects the query
already passed through `norm`, normalizes the item fields itself, and
returns -1 for no match. -/
def scoreItem (q : Str) (item : Item) : Int :=
  let t := norm item.t
  let d := norm item.d
  if q = ([] : Str) then -1
  else if t = q then 1000
  else if q.isPrefixOf t then 800
  else if hasSub q t then 600
  else if d ≠ ([] : Str) && hasSub q d then 300
  else -1

/-- The comparator of lines 107-110 (`b.s - a.s` when the scores differ,
else `a.t.localeCompare(b.t)`) as a stable-sort ordering: descending
score, ties broken by ascending lexicographic title. -/
def cmpLe (a b : Scored) : Prop :=
  b.s < a.s ∨ (b.s = a.s ∧ a.it.t ≤ b.it.t)

instance : DecidableRel cmpLe := fun a b =>
  inferInstanceAs (Decidable (b.s < a.s ∨ (b.s = a.s ∧ a.it.t ≤ b.it.t)))

/-- The candidate-collection loop of `search` (lines 100-105): keep
scores `>= 0`. -/
def candidates (items : List Item) (q : Str) : List Scored :=
  (items.map fun it => ⟨scoreItem q it, it⟩).filter fun c => decide (c.s ≥ 0)

/-- The call `scored.sort(...)` (lines 107-110): stable sort by descending score,
then ascending title. -/
def ranked (items : List Item) (q : Str) : List Scored :=
  List.insertionSort cmpLe (candidates items q)

/-- Loader state of src/unnamed/part_001: the module-level
`indexItems`/`ready` variables.  The fetch is issued once at script load,
so no call counter is modelled. -/
structure State where
  indexItems : List Item
  ready : Bool
deriving DecidableEq

/-- Initial state (lines 9-10). -/
def initState : State := ⟨[], false⟩

/-- The fulfilled-fetch handler (lines 173-176): `data.items` if present,
else `[]`; `ready` becomes true. -/
def onLoadSuccess (_s : State) (data : Option (List Item)) : State :=
  ⟨data.getD [], true⟩

/-- The `catch` handler (lines 177-179): only `ready = false`; the widget
never becomes ready after a failed fetch. -/
def onLoadFailure (s : State) : State :=
  ⟨s.indexItems, false⟩

/-- Function `search` from src/unnamed/part_001 lines 88-115, reduced to the
observable result state (the "Loading..." box is `openLoading`). -/
def search (st : State) (q : Str) : UIState :=
  let qn := norm q
  if qn = ([] : Str) then UIState.closed
  else if st.ready = false then UIState.openLoading
  else
    let top := (ranked st.indexItems qn).take 8
    if top = ([] : List Scored) then UIState.openEmpty
    else UIState.openResults top

/-- Function `setActive` from lines 56-65: indices outside `[0, n)` clear the
selection to -1. -/
def setActive (n : Nat) (i : Int) : Int :=
  if 0 ≤ i ∧ i < (n : Int) then i else -1

/-- ArrowDown branch of the keydown handler (lines 138-145): wrap to the
first row past the end. -/
def arrowDown (n : Nat) (a : Int) : Int :=
  if n = 0 then a
  else if a + 1 ≥ (n : Int) then setActive n 0
  else setActive n (a + 1)

/-- ArrowUp branch of the keydown handler (lines 147-154): wrap to the
last row before the start. -/
def arrowUp (n : Nat) (a : Int) : Int :=
  if n = 0 then a
  else if a - 1 < 0 then setActive n ((n : Int) - 1)
  else setActive n (a - 1)

/-- Enter branch of the keydown handler (lines 156-163) together with
`goActive` (lines 67-72): navigate only when a row is active and in
range; otherwise do nothing. -/
def enterNav (n : Nat) (a : Int) : Option Int :=
  if 0 ≤ a then (if a < (n : Int) then some a else none) else none

end Part001

/-! ## Helper lemmas -/

theorem lowerChar_of_ws {c : Char} (h : isWsChar c = true) : lowerChar c = c := by
  have h' : ((c = ' ' ∨ c = '\t') ∨ c = '\n') ∨ c = '\r' := by
    simpa [isWsChar, Bool.or_eq_true, decide_eq_true_iff] using h
  rcases h' with ((h' | h') | h') | h' <;> subst h' <;> rfl

theorem jsTrim_eq_nil_forall {s : Str} (h : jsTrim s = ([] : Str)) :
    ∀ c ∈ s, isWsChar c = true := by
  have h1 : (s.dropWhile isWsChar).reverse.dropWhile isWsChar = [] := by
    simpa [jsTrim, List.reverse_eq_nil_iff] using h
  have h2 : ∀ c ∈ (s.dropWhile isWsChar).reverse, isWsChar c = true :=
    List.dropWhile_eq_nil_iff.mp h1
  intro c hc
  rw [← List.takeWhile_append_dropWhile isWsChar s] at hc
  rcases List.mem_append.mp hc with hc' | hc'
  · exact List.mem_takeWhile_imp hc'
  · exact h2 c (List.mem_reverse.mpr hc')

theorem jsTrim_jsLower_nil {s : Str} (h : jsTrim s = ([] : Str)) :
    jsTrim (jsLower s) = ([] : Str) := by
  have hws := jsTrim_eq_nil_forall h
  have hmap : jsLower s = s := by
    unfold jsLower
    have h2 : List.map lowerChar s = List.map id s :=
      List.map_congr_left fun a ha => lowerChar_of_ws (hws a ha)
    rw [h2, List.map_id]
  rw [hmap, h]

theorem jsLower_ne_nil {s : Str} (h : s ≠ ([] : Str)) : jsLower s ≠ ([] : Str) := by
  simpa [jsLower, List.map_eq_nil_iff] using h

theorem hasSub_nil {q : Str} (h : q ≠ ([] : Str)) : hasSub q [] = false := by
  simp [hasSub, h]

theorem nonempty_and_hasSub {q : Str} (d : Str) (h : q ≠ ([] : Str)) :
    (decide (d ≠ ([] : Str)) && hasSub q d) = hasSub q d := by
  cases d with
  | nil => simp [hasSub_nil h]
  | cons c l => simp

/-- The score each variant assigns to each match kind. -/
def scoreTable1 : Option Kind → Int
  | some Kind.kExact => 1000
  | some Kind.kStarts => 800
  | some Kind.kContains => 600
  | some Kind.kInDesc => 300
  | none => 0

/-- The score src/unnamed/part_000 assigns to each match kind. -/
def scoreTable2 : Option Kind → Int
  | some Kind.kExact => 1000
  | some Kind.kStarts => 850
  | some Kind.kContains => 650
  | some Kind.kInDesc => 300
  | none => 0

/-- The score src/unnamed/part_001 assigns to each match kind. -/
def scoreTable3 : Option Kind → Int
  | some Kind.kExact => 1000
  | some Kind.kStarts => 800
  | some Kind.kContains => 600
  | some Kind.kInDesc => 300
  | none => -1

theorem score1_classify (q t d : Str) (h : q ≠ ([] : Str)) :
    SearchJs.score q t d = scoreTable1 (kindOf (jsLower q) (jsLower t) (jsLower d)) := by
  have hq : jsLower q ≠ ([] : Str) := jsLower_ne_nil h
  simp only [SearchJs.score, kindOf, scoreTable1, if_neg hq]
  split_ifs <;> rfl

theorem score2_classify (q t d : Str) (h : q ≠ ([] : Str)) :
    Part000.score q t d = scoreTable2 (kindOf (jsLower q) (jsLower t) (jsLower d)) := by
  have hq : jsLower q ≠ ([] : Str) := jsLower_ne_nil h
  simp only [Part000.score, kindOf, scoreTable2, if_neg hq]
  split_ifs <;> rfl

theorem score3_classify (q : Str) (item : Item) (h : q ≠ ([] : Str)) :
    Part001.scoreItem q item =
      scoreTable3 (kindOf q (Part001.norm item.t) (Part001.norm item.d)) := by
  simp only [Part001.scoreItem, kindOf, scoreTable3, if_neg h,
    nonempty_and_hasSub (Part001.norm item.d) h]
  split_ifs <;> rfl

instance : IsTotal Scored SearchJs.cmpLe := ⟨fun a b => le_total b.s a.s⟩

instance : IsTrans Scored SearchJs.cmpLe := ⟨fun _ _ _ h1 h2 => le_trans h2 h1⟩

instance : IsTotal Scored Part000.cmpLe := ⟨fun a b => le_total b.s a.s⟩

instance : IsTrans Scored Part000.cmpLe := ⟨fun _ _ _ h1 h2 => le_trans h2 h1⟩

instance : IsTotal Scored Part001.cmpLe :=
  ⟨fun a b => by
    unfold Part001.cmpLe
    rcases lt_trichotomy a.s b.s with h | h | h
    · exact Or.inr (Or.inl h)
    · rcases le_total a.it.t b.it.t with ht | ht
      · exact Or.inl (Or.inr ⟨h.symm, ht⟩)
      · exact Or.inr (Or.inr ⟨h, ht⟩)
    · exact Or.inl (Or.inl h)⟩

instance : IsTrans Scored Part001.cmpLe :=
  ⟨fun a b c h1 h2 => by
    unfold Part001.cmpLe at h1 h2 ⊢
    rcases h1 with h1 | ⟨h1e, h1t⟩ <;> rcases h2 with h2 | ⟨h2e, h2t⟩
    · exact Or.inl (by omega)
    · exact Or.inl (by omega)
    · exact Or.inl (by omega)
    · exact Or.inr ⟨by omega, le_trans h1t h2t⟩⟩

theorem filter_orderedInsert_neg {α : Type} (r : α → α → Prop) [DecidableRel r]
    (p : α → Bool) (x : α) (hx : p x = false) (m : List α) :
    (List.orderedInsert r x m).filter p = m.filter p := by
  induction m with
  | nil => simp [hx]
  | cons b m ih =>
    by_cases hr : r x b
    · simp [List.orderedInsert, hr, hx]
    · simp [List.orderedInsert, hr, List.filter_cons, ih]

theorem filter_orderedInsert_pos {α : Type} (r : α → α → Prop) [DecidableRel r]
    (p : α → Bool) (x : α) (hx : p x = true) (hall : ∀ b, p b = true → r x b)
    (m : List α) :
    (List.orderedInsert r x m).filter p = x :: m.filter p := by
  induction m with
  | nil => simp [hx]
  | cons b m ih =>
    by_cases hr : r x b
    · simp [List.orderedInsert, hr, hx]
    · have hb : p b = false := by
        cases hpb : p b
        · rfl
        · exact absurd (hall b hpb) hr
      simp [List.orderedInsert, hr, List.filter_cons, hb, ih]

theorem filter_insertionSort_eq {α : Type} (r : α → α → Prop) [DecidableRel r]
    (p : α → Bool) (hall : ∀ a b, p a = true → p b = true → r a b) (l : List α) :
    (List.insertionSort r l).filter p = l.filter p := by
  induction l with
  | nil => rfl
  | cons a l ih =>
    cases ha : p a
    · rw [List.insertionSort, filter_orderedInsert_neg r p a ha, ih,
        List.filter_cons_of_neg (by simp [ha])]
    · rw [List.insertionSort,
        filter_orderedInsert_pos r p a ha (fun b hb => hall a b ha hb), ih,
        List.filter_cons_of_pos ha]

theorem render1_openResults {items : List Item} {q : Str} {top : List Scored}
    (h : SearchJs.render items q = UIState.openResults top) :
    jsTrim q ≠ ([] : Str) ∧ top = (SearchJs.ranked items (jsTrim q)).take 10 := by
  simp only [SearchJs.render] at h
  by_cases hq : jsTrim q = ([] : Str)
  · rw [if_pos hq] at h
    exact absurd h (by simp)
  · rw [if_neg hq] at h
    by_cases ht : (SearchJs.ranked items (jsTrim q)).take 10 = ([] : List Scored)
    · rw [if_pos ht] at h
      exact absurd h (by simp)
    · rw [if_neg ht] at h
      injection h with h'
      exact ⟨hq, h'.symm⟩

theorem render2_openResults {items : List Item} {q : Str} {top : List Scored}
    (h : Part000.render items q = UIState.openResults top) :
    jsTrim q ≠ ([] : Str) ∧ top = (Part000.ranked items (jsTrim q)).take 10 := by
  simp only [Part000.render] at h
  by_cases hq : jsTrim q = ([] : Str)
  · rw [if_pos hq] at h
    exact absurd h (by simp)
  · rw [if_neg hq] at h
    by_cases ht : (Part000.ranked items (jsTrim q)).take 10 = ([] : List Scored)
    · rw [if_pos ht] at h
      exact absurd h (by simp)
    · rw [if_neg ht] at h
      injection h with h'
      exact ⟨hq, h'.symm⟩

theorem search3_openResults {st : Part001.State} {q : Str} {top : List Scored}
    (h : Part001.search st q = UIState.openResults top) :
    Part001.norm q ≠ ([] : Str) ∧ st.ready = true ∧
      top = (Part001.ranked st.indexItems (Part001.norm q)).take 8 := by
  simp only [Part001.search] at h
  by_cases hq : Part001.norm q = ([] : Str)
  · rw [if_pos hq] at h
    exact absurd h (by simp)
  · rw [if_neg hq] at h
    by_cases hr : st.ready = false
    · rw [if_pos hr] at h
      exact absurd h (by simp)
    · rw [if_neg hr] at h
      by_cases ht : (Part001.ranked st.indexItems (Part001.norm q)).take 8 =
          ([] : List Scored)
      · rw [if_pos ht] at h
        exact absurd h (by simp)
      · rw [if_neg ht] at h
        injection h with h'
        exact ⟨hq, by simpa using hr, h'.symm⟩

theorem normUrl_ne_nil (u : Str) : Part000.normUrl u ≠ ([] : Str) := by
  simp only [Part000.normUrl]
  split_ifs with h
  · simp
  · exact h

theorem normalizeEntry_some {x : Part000.RawEntry} {r : Item}
    (h : Part000.normalizeEntry x = some r) :
    r = ⟨jsTrim (Part000.pick [x.t, x.title, x.name, x.h1]),
         jsTrim (Part000.pick [x.d, x.description, x.desc, x.snippet, x.summary]),
         Part000.normUrl (Part000.pick [x.u, x.url, x.href, x.path, x.link])⟩ ∧
      jsTrim (Part000.pick [x.t, x.title, x.name, x.h1]) ≠ ([] : Str) := by
  simp only [Part000.normalizeEntry] at h
  split at h
  · exact absurd h (by simp)
  · rename_i hguard
    injection h with h'
    refine ⟨h'.symm, fun hnil => hguard (by simp [hnil])⟩

/-! ## Claim theorems -/

/-- C1 counterexample: in src/search.js two candidates with equal score
(300, both match only in the description) are returned in their original
record order, title "b" before title "a", which is not ascending
lexicographic title order. -/
theorem c1_counterexample :
    SearchJs.render [⟨['b'], ['q'], ['/', 'b']⟩, ⟨['a'], ['q'], ['/', 'a']⟩] ['q'] =
      UIState.openResults
        [⟨300, ⟨['b'], ['q'], ['/', 'b']⟩⟩, ⟨300, ⟨['a'], ['q'], ['/', 'a']⟩⟩] ∧
    ¬ ((['b'] : Str) ≤ (['a'] : Str)) := by
  decide

/-- C1 (amended): src/unnamed/part_001 ranks by descending score with
ties broken by ascending lexicographic title; src/search.js and
src/unnamed/part_000 rank by descending score only, and candidates of
equal score keep their original candidate order (the sort is stable), so
their ties are not ordered by title. -/
theorem c1_tie_ordering :
    (∀ (st : Part001.State) (q : Str) (top : List Scored),
      Part001.search st q = UIState.openResults top →
        top.Pairwise Part001.cmpLe) ∧
    (∀ (items : List Item) (q : Str) (s0 : Int),
      (SearchJs.ranked items q).filter (fun c => decide (c.s = s0)) =
        (SearchJs.candidates items q).filter (fun c => decide (c.s = s0))) ∧
    (∀ (items : List Item) (q : Str) (s0 : Int),
      (Part000.ranked items q).filter (fun c => decide (c.s = s0)) =
        (Part000.candidates items q).filter (fun c => decide (c.s = s0))) ∧
    (∀ (items : List Item) (q : Str) (top : List Scored),
      SearchJs.render items q = UIState.openResults top →
        top.Pairwise SearchJs.cmpLe) ∧
    (∀ (items : List Item) (q : Str) (top : List Scored),
      Part000.render items q = UIState.openResults top →
        top.Pairwise Part000.cmpLe) := by
  refine ⟨?_, ?_, ?_, ?_, ?_⟩
  · intro st q top h
    obtain ⟨-, -, htop⟩ := search3_openResults h
    subst htop
    unfold Part001.ranked
    exact List.Pairwise.sublist (List.take_sublist 8 _)
      (List.sorted_insertionSort Part001.cmpLe _)
  · intro items q s0
    unfold SearchJs.ranked
    exact filter_insertionSort_eq SearchJs.cmpLe (fun c => decide (c.s = s0))
      (fun a b ha hb => by
        rw [decide_eq_true_iff] at ha hb
        unfold SearchJs.cmpLe
        omega) _
  · intro items q s0
    unfold Part000.ranked
    exact filter_insertionSort_eq Part000.cmpLe (fun c => decide (c.s = s0))
      (fun a b ha hb => by
        rw [decide_eq_true_iff] at ha hb
        unfold Part000.cmpLe
        omega) _
  · intro items q top h
    obtain ⟨-, htop⟩ := render1_openResults h
    subst htop
    unfold SearchJs.ranked
    exact List.Pairwise.sublist (List.take_sublist 10 _)
      (List.sorted_insertionSort SearchJs.cmpLe _)
  · intro items q top h
    obtain ⟨-, htop⟩ := render2_openResults h
    subst htop
    unfold Part000.ranked
    exact List.Pairwise.sublist (List.take_sublist 10 _)
      (List.sorted_insertionSort Part000.cmpLe _)

/-- C1 witness: the amended statement at a one-record index. -/
theorem c1_tie_ordering_witness :
    ([⟨1000, ⟨['a'], [], ['/']⟩⟩] : List Scored).Pairwise Part001.cmpLe ∧
    (SearchJs.ranked [⟨['a'], [], ['/']⟩] ['a']).filter
        (fun c => decide (c.s = 1000)) =
      (SearchJs.candidates [⟨['a'], [], ['/']⟩] ['a']).filter
        (fun c => decide (c.s = 1000)) ∧
    ([⟨1000, ⟨['a'], [], ['/']⟩⟩] : List Scored).Pairwise SearchJs.cmpLe :=
  ⟨c1_tie_ordering.1 ⟨[⟨['a'], [], ['/']⟩], true⟩ ['a']
      [⟨1000, ⟨['a'], [], ['/']⟩⟩] (by decide),
    c1_tie_ordering.2.1 [⟨['a'], [], ['/']⟩] ['a'] 1000,
    c1_tie_ordering.2.2.2.1 [⟨['a'], [], ['/']⟩] ['a']
      [⟨1000, ⟨['a'], [], ['/']⟩⟩] (by decide)⟩

/-- C2 counterexample: after a fetch failure in src/unnamed/part_001 the
loader is NOT settled as loaded (`ready` stays false), and a subsequent
non-empty search shows the loading indicator, not an empty ranked
result list. -/
theorem c2_counterexample :
    (Part001.onLoadFailure Part001.initState).ready = false ∧
    Part001.search (Part001.onLoadFailure Part001.initState) ['a', 'n', 'y'] =
      UIState.openLoading ∧
    Part001.search (Part001.onLoadFailure Part001.initState) ['a', 'n', 'y'] ≠
      UIState.openEmpty := by
  decide

/-- C2 (amended): in src/search.js and src/unnamed/part_000 a fetch or
parse failure settles the loader as loaded with an empty record list and
every subsequent non-empty search yields the open-empty state (an empty
ranked list), while in src/unnamed/part_001 a failure leaves the loader
un-ready and subsequent non-empty searches show the loading indicator;
in all variants the failure is absorbed, never surfaced as an error. -/
theorem c2_failure_absorbed :
    (SearchJs.onLoadFailure (SearchJs.ensureLoaded SearchJs.initLoad)).loaded = true ∧
    (SearchJs.onLoadFailure (SearchJs.ensureLoaded SearchJs.initLoad)).items = [] ∧
    (Part000.onLoadFailure (Part000.ensureLoaded Part000.initLoad)).loaded = true ∧
    (Part000.onLoadFailure (Part000.ensureLoaded Part000.initLoad)).items = [] ∧
    (∀ q : Str, jsTrim q ≠ ([] : Str) →
      SearchJs.render [] q = UIState.openEmpty ∧
      Part000.render [] q = UIState.openEmpty) ∧
    (Part001.onLoadFailure Part001.initState).ready = false ∧
    (∀ q : Str, Part001.norm q ≠ ([] : Str) →
      Part001.search (Part001.onLoadFailure Part001.initState) q =
        UIState.openLoading) := by
  refine ⟨by decide, by decide, by decide, by decide, ?_, by decide, ?_⟩
  · intro q hq
    constructor
    · simp [SearchJs.render, hq, SearchJs.ranked, SearchJs.candidates]
    · simp [Part000.render, hq, Part000.ranked, Part000.candidates]
  · intro q hq
    simp [Part001.search, hq, Part001.onLoadFailure, Part001.initState]

/-- C2 witness: the amended statement at the query "a". -/
theorem c2_failure_absorbed_witness :
    SearchJs.render [] ['a'] = UIState.openEmpty ∧
    Part000.render [] ['a'] = UIState.openEmpty ∧
    Part001.search (Part001.onLoadFailure Part001.initState) ['a'] =
      UIState.openLoading :=
  ⟨(c2_failure_absorbed.2.2.2.2.1 ['a'] (by decide)).1,
    (c2_failure_absorbed.2.2.2.2.1 ['a'] (by decide)).2,
    c2_failure_absorbed.2.2.2.2.2.2 ['a'] (by decide)⟩

/-- C3 counterexample: a raw entry with a non-empty title and no url
field at all is NOT dropped by `normalizeData`; it is kept with its url
defaulted to "/" by `normUrl`. -/
theorem c3_counterexample :
    Part000.normalizeData
        [some ⟨some ['X'], none, none, none, none, none, none, none, none,
          none, none, none, none, none⟩] =
      [⟨['X'], [], ['/']⟩] ∧
    Part000.normalizeData
        [some ⟨some ['X'], none, none, none, none, none, none, none, none,
          none, none, none, none, none⟩] ≠ ([] : List Item) := by
  decide

/-- C3 (amended): entries whose resolved trimmed title is empty are
dropped at load time; an empty or absent url is replaced by "/" (the
entry is kept); every record in the loaded list has a non-empty title
and a non-empty url. -/
theorem c3_normalize_invariant :
    (∀ (raw : List (Option Part000.RawEntry)) (r : Item),
      r ∈ Part000.normalizeData raw → r.t ≠ ([] : Str) ∧ r.u ≠ ([] : Str)) ∧
    (∀ x : Part000.RawEntry,
      jsTrim (Part000.pick [x.t, x.title, x.name, x.h1]) = ([] : Str) →
      Part000.normalizeEntry x = none) ∧
    (∀ (x : Part000.RawEntry) (r : Item),
      jsTrim (Part000.pick [x.u, x.url, x.href, x.path, x.link]) = ([] : Str) →
      Part000.normalizeEntry x = some r → r.u = ['/']) := by
  refine ⟨?_, ?_, ?_⟩
  · intro raw r hr
    simp only [Part000.normalizeData] at hr
    obtain ⟨ox, _, hbind⟩ := List.mem_filterMap.mp hr
    cases ox with
    | none => simp at hbind
    | some x =>
      have hx : Part000.normalizeEntry x = some r := by simpa using hbind
      obtain ⟨hre, ht⟩ := normalizeEntry_some hx
      subst hre
      exact ⟨ht, normUrl_ne_nil _⟩
  · intro x hx
    simp [Part000.normalizeEntry, hx]
  · intro x r hurl hx
    obtain ⟨hre, _⟩ := normalizeEntry_some hx
    subst hre
    simp [Part000.normUrl, hurl]

/-- C3 witness: the amended statement at concrete raw entries. -/
theorem c3_normalize_invariant_witness :
    ((⟨['X'], [], ['/']⟩ : Item).t ≠ ([] : Str) ∧
      (⟨['X'], [], ['/']⟩ : Item).u ≠ ([] : Str)) ∧
    Part000.normalizeEntry
      ⟨none, none, none, none, none, none, none, none, none,
        some ['/', 'x'], none, none, none, none⟩ = none ∧
    (⟨['X'], [], ['/']⟩ : Item).u = ['/'] :=
  ⟨c3_normalize_invariant.1
      [some ⟨some ['X'], none, none, none, none, none, none, none, none,
        none, none, none, none, none⟩] ⟨['X'], [], ['/']⟩ (by decide),
    c3_normalize_invariant.2.1
      ⟨none, none, none, none, none, none, none, none, none,
        some ['/', 'x'], none, none, none, none⟩ (by decide),
    c3_normalize_invariant.2.2
      ⟨some ['X'], none, none, none, none, none, none, none, none,
        none, none, none, none, none⟩ ⟨['X'], [], ['/']⟩ (by decide) (by decide)⟩

/-- C4 counterexample: with 2 rows and the last row active, ArrowDown
clamps to row 1 in src/search.js but wraps to row 0 in
src/unnamed/part_001, so the three variants do not compute the same
next active index. -/
theorem c4_counterexample :
    SearchJs.arrowDown 2 1 = 1 ∧ Part001.arrowDown 2 1 = 0 ∧
      SearchJs.arrowDown 2 1 ≠ Part001.arrowDown 2 1 := by
  decide

/-- C4 (amended): the ArrowDown/ArrowUp next-index functions of
src/search.js and src/unnamed/part_000 are the same function
(clamp-at-edge), but src/unnamed/part_001 wraps around at both edges, so
the three variants do not all agree. -/
theorem c4_arrow_keys :
    (∀ (n : Nat) (a : Int),
      SearchJs.arrowDown n a = Part000.arrowDown n a ∧
      SearchJs.arrowUp n a = Part000.arrowUp n a) ∧
    (∀ n : Nat, 1 ≤ n →
      Part001.arrowDown n ((n : Int) - 1) = 0 ∧
      Part001.arrowUp n 0 = (n : Int) - 1 ∧
      SearchJs.arrowDown n ((n : Int) - 1) = (n : Int) - 1 ∧
      SearchJs.arrowUp n 0 = 0) ∧
    Part001.arrowDown 2 1 ≠ SearchJs.arrowDown 2 1 := by
  refine ⟨fun n a => ⟨rfl, rfl⟩, fun n hn => ?_, by decide⟩
  have hn0 : n ≠ 0 := by omega
  refine ⟨?_, ?_, ?_, ?_⟩
  · unfold Part001.arrowDown Part001.setActive
    rw [if_neg hn0, if_pos (by omega : (n : Int) - 1 + 1 ≥ (n : Int)),
      if_pos ⟨by omega, by omega⟩]
  · unfold Part001.arrowUp Part001.setActive
    rw [if_neg hn0, if_pos (by omega : (0 : Int) - 1 < 0),
      if_pos ⟨by omega, by omega⟩]
  · unfold SearchJs.arrowDown
    rw [if_neg hn0, if_pos (by omega : (n : Int) - 1 + 1 ≥ (n : Int))]
  · unfold SearchJs.arrowUp
    rw [if_neg hn0, if_pos (by omega : (0 : Int) - 1 < 0)]

/-- C4 witness: the amended statement at concrete inputs. -/
theorem c4_arrow_keys_witness :
    SearchJs.arrowDown 5 2 = Part000.arrowDown 5 2 ∧
    Part001.arrowDown 3 2 = 0 ∧
    Part001.arrowUp 3 0 = (3 : Int) - 1 :=
  ⟨(c4_arrow_keys.1 5 2).1, (c4_arrow_keys.2.1 3 (by decide)).1,
    (c4_arrow_keys.2.1 3 (by decide)).2.1⟩

/-- C5: for every non-empty normalized query, each variant's score is
strictly increasing in the match kind (description-substring <
title-substring < title-prefix < exact title), and a record matching
none of the kinds never appears among the scored candidates. -/
theorem c5_score_monotonic :
    (∀ (q t₁ d₁ t₂ d₂ : Str) (k₁ k₂ : Kind), q ≠ ([] : Str) →
      kindOf (jsLower q) (jsLower t₁) (jsLower d₁) = some k₁ →
      kindOf (jsLower q) (jsLower t₂) (jsLower d₂) = some k₂ →
      rank k₂ < rank k₁ →
      SearchJs.score q t₂ d₂ < SearchJs.score q t₁ d₁ ∧
      Part000.score q t₂ d₂ < Part000.score q t₁ d₁) ∧
    (∀ (q : Str) (i₁ i₂ : Item) (k₁ k₂ : Kind), q ≠ ([] : Str) →
      kindOf q (Part001.norm i₁.t) (Part001.norm i₁.d) = some k₁ →
      kindOf q (Part001.norm i₂.t) (Part001.norm i₂.d) = some k₂ →
      rank k₂ < rank k₁ →
      Part001.scoreItem q i₂ < Part001.scoreItem q i₁) ∧
    (∀ (q : Str) (items : List Item) (c : Scored), q ≠ ([] : Str) →
      c ∈ SearchJs.candidates items q →
      kindOf (jsLower q) (jsLower c.it.t) (jsLower c.it.d) ≠ none) ∧
    (∀ (q : Str) (items : List Item) (c : Scored), q ≠ ([] : Str) →
      c ∈ Part000.candidates items q →
      kindOf (jsLower q) (jsLower c.it.t) (jsLower c.it.d) ≠ none) ∧
    (∀ (q : Str) (items : List Item) (c : Scored), q ≠ ([] : Str) →
      c ∈ Part001.candidates items q →
      kindOf q (Part001.norm c.it.t) (Part001.norm c.it.d) ≠ none) := by
  refine ⟨?_, ?_, ?_, ?_, ?_⟩
  · intro q t₁ d₁ t₂ d₂ k₁ k₂ hq hk1 hk2 hlt
    rw [score1_classify q t₁ d₁ hq, score1_classify q t₂ d₂ hq,
      score2_classify q t₁ d₁ hq, score2_classify q t₂ d₂ hq, hk1, hk2]
    revert hlt
    cases k₁ <;> cases k₂ <;> decide
  · intro q i₁ i₂ k₁ k₂ hq hk1 hk2 hlt
    rw [score3_classify q i₁ hq, score3_classify q i₂ hq, hk1, hk2]
    revert hlt
    cases k₁ <;> cases k₂ <;> decide
  · intro q items c hq hc hnone
    obtain ⟨hmem, hpos⟩ := List.mem_filter.mp hc
    obtain ⟨it, _, hceq⟩ := List.mem_map.mp hmem
    subst hceq
    dsimp only at hnone hpos
    rw [decide_eq_true_iff] at hpos
    have hcl := score1_classify q it.t it.d hq
    rw [hnone] at hcl
    simp only [scoreTable1] at hcl
    omega
  · intro q items c hq hc hnone
    obtain ⟨hmem, hpos⟩ := List.mem_filter.mp hc
    obtain ⟨it, _, hceq⟩ := List.mem_map.mp hmem
    subst hceq
    dsimp only at hnone hpos
    rw [decide_eq_true_iff] at hpos
    have hcl := score2_classify q it.t it.d hq
    rw [hnone] at hcl
    simp only [scoreTable2] at hcl
    omega
  · intro q items c hq hc hnone
    obtain ⟨hmem, hpos⟩ := List.mem_filter.mp hc
    obtain ⟨it, _, hceq⟩ := List.mem_map.mp hmem
    subst hceq
    dsimp only at hnone hpos
    rw [decide_eq_true_iff] at hpos
    have hcl := score3_classify q it hq
    rw [hnone] at hcl
    simp only [scoreTable3] at hcl
    omega

/-- C5 witness: the statement at the query "ab", an exact-title record,
a prefix-title record, and a concrete candidate of each variant. -/
theorem c5_score_monotonic_witness :
    (SearchJs.score ['a', 'b'] ['a', 'b', 'c'] [] <
        SearchJs.score ['a', 'b'] ['a', 'b'] [] ∧
      Part000.score ['a', 'b'] ['a', 'b', 'c'] [] <
        Part000.score ['a', 'b'] ['a', 'b'] []) ∧
    Part001.scoreItem ['a', 'b'] ⟨['a', 'b', 'c'], [], ['/']⟩ <
      Part001.scoreItem ['a', 'b'] ⟨['a', 'b'], [], ['/']⟩ ∧
    kindOf ['a', 'b'] ['a', 'b'] [] ≠ none :=
  ⟨c5_score_monotonic.1 ['a', 'b'] ['a', 'b'] [] ['a', 'b', 'c'] []
      Kind.kExact Kind.kStarts (by decide) (by decide) (by decide) (by decide),
    c5_score_monotonic.2.1 ['a', 'b'] ⟨['a', 'b'], [], ['/']⟩
      ⟨['a', 'b', 'c'], [], ['/']⟩ Kind.kExact Kind.kStarts
      (by decide) (by decide) (by decide) (by decide),
    c5_score_monotonic.2.2.1 ['a', 'b'] [⟨['a', 'b'], [], ['/']⟩]
      ⟨1000, ⟨['a', 'b'], [], ['/']⟩⟩ (by decide) (by decide)⟩

/-- C6 counterexample: with 11 equal-score candidates, src/search.js
returns the first 10 in record order and drops the title "a" record,
although under the claimed descending-score, ascending-title ordering
the "a" candidate precedes the returned "k" candidate — so the returned
10 are not the top 10 of that ordering. -/
theorem c6_counterexample :
    SearchJs.render
        [⟨['b'], ['q'], ['/']⟩, ⟨['c'], ['q'], ['/']⟩, ⟨['d'], ['q'], ['/']⟩,
         ⟨['e'], ['q'], ['/']⟩, ⟨['f'], ['q'], ['/']⟩, ⟨['g'], ['q'], ['/']⟩,
         ⟨['h'], ['q'], ['/']⟩, ⟨['i'], ['q'], ['/']⟩, ⟨['j'], ['q'], ['/']⟩,
         ⟨['k'], ['q'], ['/']⟩, ⟨['a'], ['q'], ['/']⟩] ['q'] =
      UIState.openResults
        [⟨300, ⟨['b'], ['q'], ['/']⟩⟩, ⟨300, ⟨['c'], ['q'], ['/']⟩⟩,
         ⟨300, ⟨['d'], ['q'], ['/']⟩⟩, ⟨300, ⟨['e'], ['q'], ['/']⟩⟩,
         ⟨300, ⟨['f'], ['q'], ['/']⟩⟩, ⟨300, ⟨['g'], ['q'], ['/']⟩⟩,
         ⟨300, ⟨['h'], ['q'], ['/']⟩⟩, ⟨300, ⟨['i'], ['q'], ['/']⟩⟩,
         ⟨300, ⟨['j'], ['q'], ['/']⟩⟩, ⟨300, ⟨['k'], ['q'], ['/']⟩⟩] ∧
    Part001.cmpLe ⟨300, ⟨['a'], ['q'], ['/']⟩⟩ ⟨300, ⟨['k'], ['q'], ['/']⟩⟩ := by
  decide

/-- C6 (amended): the result list is capped at K (10 in src/search.js
and src/unnamed/part_000, 8 in src/unnamed/part_001); together with the
dropped tail it is a permutation of the candidate list; every returned
candidate dominates every dropped candidate — in src/unnamed/part_001
under the descending-score, ascending-title ordering, and in the other
two variants under descending score only (their ties keep candidate
order). -/
theorem c6_topk :
    (∀ (items : List Item) (q : Str) (top : List Scored),
      SearchJs.render items q = UIState.openResults top →
      top.length ≤ 10 ∧
      (top ++ (SearchJs.ranked items (jsTrim q)).drop 10).Perm
        (SearchJs.candidates items (jsTrim q)) ∧
      ∀ x ∈ top, ∀ y ∈ (SearchJs.ranked items (jsTrim q)).drop 10,
        SearchJs.cmpLe x y) ∧
    (∀ (items : List Item) (q : Str) (top : List Scored),
      Part000.render items q = UIState.openResults top →
      top.length ≤ 10 ∧
      (top ++ (Part000.ranked items (jsTrim q)).drop 10).Perm
        (Part000.candidates items (jsTrim q)) ∧
      ∀ x ∈ top, ∀ y ∈ (Part000.ranked items (jsTrim q)).drop 10,
        Part000.cmpLe x y) ∧
    (∀ (st : Part001.State) (q : Str) (top : List Scored),
      Part001.search st q = UIState.openResults top →
      top.length ≤ 8 ∧
      (top ++ (Part001.ranked st.indexItems (Part001.norm q)).drop 8).Perm
        (Part001.candidates st.indexItems (Part001.norm q)) ∧
      ∀ x ∈ top, ∀ y ∈ (Part001.ranked st.indexItems (Part001.norm q)).drop 8,
        Part001.cmpLe x y) := by
  refine ⟨?_, ?_, ?_⟩
  · intro items q top h
    obtain ⟨-, htop⟩ := render1_openResults h
    subst htop
    refine ⟨List.length_take_le _ _, ?_, ?_⟩
    · rw [List.take_append_drop]
      unfold SearchJs.ranked
      exact List.perm_insertionSort SearchJs.cmpLe _
    · have hs : (SearchJs.ranked items (jsTrim q)).Pairwise SearchJs.cmpLe := by
        unfold SearchJs.ranked
        exact List.sorted_insertionSort SearchJs.cmpLe _
      rw [← List.take_append_drop 10 (SearchJs.ranked items (jsTrim q))] at hs
      exact (List.pairwise_append.mp hs).2.2
  · intro items q top h
    obtain ⟨-, htop⟩ := render2_openResults h
    subst htop
    refine ⟨List.length_take_le _ _, ?_, ?_⟩
    · rw [List.take_append_drop]
      unfold Part000.ranked
      exact List.perm_insertionSort Part000.cmpLe _
    · have hs : (Part000.ranked items (jsTrim q)).Pairwise Part000.cmpLe := by
        unfold Part000.ranked
        exact List.sorted_insertionSort Part000.cmpLe _
      rw [← List.take_append_drop 10 (Part000.ranked items (jsTrim q))] at hs
      exact (List.pairwise_append.mp hs).2.2
  · intro st q top h
    obtain ⟨-, -, htop⟩ := search3_openResults h
    subst htop
    refine ⟨List.length_take_le _ _, ?_, ?_⟩
    · rw [List.take_append_drop]
      unfold Part001.ranked
      exact List.perm_insertionSort Part001.cmpLe _
    · have hs : (Part001.ranked st.indexItems (Part001.norm q)).Pairwise
          Part001.cmpLe := by
        unfold Part001.ranked
        exact List.sorted_insertionSort Part001.cmpLe _
      rw [← List.take_append_drop 8
        (Part001.ranked st.indexItems (Part001.norm q))] at hs
      exact (List.pairwise_append.mp hs).2.2

/-- C6 witness: the amended statement at a one-record index. -/
theorem c6_topk_witness :
    ([⟨1000, ⟨['a'], [], ['/']⟩⟩] : List Scored).length ≤ 10 ∧
    ([⟨1000, ⟨['a'], [], ['/']⟩⟩] : List Scored).length ≤ 8 :=
  ⟨(c6_topk.1 [⟨['a'], [], ['/']⟩] ['a']
      [⟨1000, ⟨['a'], [], ['/']⟩⟩] (by decide)).1,
    (c6_topk.2.2 ⟨[⟨['a'], [], ['/']⟩], true⟩ ['a']
      [⟨1000, ⟨['a'], [], ['/']⟩⟩] (by decide)).1⟩

/-- C7: any positive number of loader calls made before the first fetch
settles issues exactly one network request, in both variants that have a
lazy loader. -/
theorem c7_single_fetch :
    ∀ n : Nat, 1 ≤ n →
      (SearchJs.ensureLoaded^[n] SearchJs.initLoad).fetchCount = 1 ∧
      (Part000.ensureLoaded^[n] Part000.initLoad).fetchCount = 1 := by
  intro n hn
  obtain ⟨m, rfl⟩ : ∃ m, n = m + 1 := ⟨n - 1, by omega⟩
  have h1 : SearchJs.ensureLoaded (SearchJs.ensureLoaded SearchJs.initLoad) =
      SearchJs.ensureLoaded SearchJs.initLoad := by decide
  have h2 : Part000.ensureLoaded (Part000.ensureLoaded Part000.initLoad) =
      Part000.ensureLoaded Part000.initLoad := by decide
  rw [Function.iterate_succ_apply, Function.iterate_succ_apply,
    Function.iterate_fixed h1 m, Function.iterate_fixed h2 m]
  exact ⟨by decide, by decide⟩

/-- C7 witness: three rapid loader calls issue one fetch. -/
theorem c7_single_fetch_witness :
    (SearchJs.ensureLoaded^[3] SearchJs.initLoad).fetchCount = 1 ∧
    (Part000.ensureLoaded^[3] Part000.initLoad).fetchCount = 1 :=
  c7_single_fetch 3 (by decide)

/-- C8: Enter on an open panel with `n ≥ 1` rows and no active row
navigates to row 0 in src/search.js and src/unnamed/part_000, and does
nothing in src/unnamed/part_001 — exactly two variants navigate, one
does not. -/
theorem c8_enter_no_active :
    ∀ n : Nat, 1 ≤ n →
      SearchJs.enterNav n (-1) = some 0 ∧
      Part000.enterNav n (-1) = some 0 ∧
      Part001.enterNav n (-1) = none := by
  intro n hn
  have hn0 : n ≠ 0 := by omega
  have hpos : (0 : Int) < (n : Int) := by omega
  refine ⟨?_, ?_, by simp [Part001.enterNav]⟩
  · simp [SearchJs.enterNav, hn0, hpos]
  · simp [Part000.enterNav, hn0, hpos]

/-- C8 witness: the statement at `n = 2`. -/
theorem c8_enter_no_active_witness :
    SearchJs.enterNav 2 (-1) = some 0 ∧
    Part000.enterNav 2 (-1) = some 0 ∧
    Part001.enterNav 2 (-1) = none :=
  c8_enter_no_active 2 (by decide)

/-- C9: a query whose trimmed text is empty yields the closed state in
all three variants, for every record list and loader state. -/
theorem c9_empty_query_closed :
    ∀ (items : List Item) (st : Part001.State) (q : Str),
      jsTrim q = ([] : Str) →
      SearchJs.render items q = UIState.closed ∧
      Part000.render items q = UIState.closed ∧
      Part001.search st q = UIState.closed := by
  intro items st q h
  have h3 : Part001.norm q = ([] : Str) := by
    unfold Part001.norm
    exact jsTrim_jsLower_nil h
  exact ⟨by simp [SearchJs.render, h], by simp [Part000.render, h],
    by simp [Part001.search, h3]⟩

/-- C9 witness: a whitespace-only query is closed in all variants. -/
theorem c9_empty_query_closed_witness :
    SearchJs.render [] [' '] = UIState.closed ∧
    Part000.render [] [' '] = UIState.closed ∧
    Part001.search Part001.initState [' '] = UIState.closed :=
  c9_empty_query_closed [] Part001.initState [' '] (by decide)

/-- C10: in the two clamp-at-edge variants, ArrowUp with rows present and
no active selection activates row 0. -/
theorem c10_arrowup_from_none :
    ∀ n : Nat, 1 ≤ n →
      SearchJs.arrowUp n (-1) = 0 ∧ Part000.arrowUp n (-1) = 0 := by
  intro n hn
  have hn0 : n ≠ 0 := by omega
  constructor <;> simp [SearchJs.arrowUp, Part000.arrowUp, hn0]

/-- C10 witness: the statement at `n = 1`. -/
theorem c10_arrowup_from_none_witness :
    SearchJs.arrowUp 1 (-1) = 0 ∧ Part000.arrowUp 1 (-1) = 0 :=
  c10_arrowup_from_none 1 (by decide)

end GrizzlyGreens
